import Mathlib

/-!
Verification of the metadata-resolution subsystem of the yt-queue browser
extension (the `ApiService` class): YouTube id extraction, the timeout-bounded
fetcher, the exponential-backoff retrier, the two-tier resolver and the health
prober, shallowly embedded from the source.
-/

namespace YtQueue

/-! ### URL identifier extraction

`getYouTubeID` applies the JavaScript regex
`^.*(youtu.be\/|v\/|u\/\w\/|embed\/|watch\?v=|&v=)([^#&?]*).*` to the url and
accepts group 2 only when it is exactly 11 characters long.  The embedding
implements the backtracking semantics of this particular pattern directly:
the greedy `^.*` makes the alternation group match at the last possible
position (positions are tried from right to left, and every character to the
left of the chosen position must be matched by `.`, which excludes line
terminators); the six alternatives start with pairwise distinct characters, so
at a given position at most one of them can match; group 2 is the maximal run
of characters outside `#&?` after the alternative. -/

/-- JavaScript `.` (no `s` flag): any character except a line terminator. -/
def jsDot (c : Char) : Bool :=
  !(c = '\n' || c = '\r' || c = '\u2028' || c = '\u2029')

/-- JavaScript `\w`: `[A-Za-z0-9_]`. -/
def isWordChar (c : Char) : Bool :=
  c.isAlpha || c.isDigit || c = '_'

/-- JavaScript `[^#&?]`, the character class of the id-capturing group 2. -/
def idBodyChar (c : Char) : Bool :=
  !(c = '#' || c = '&' || c = '?')

/-- Match a literal character sequence at the head of the input, returning the
remainder. -/
def matchLit : List Char → List Char → Option (List Char)
  | [], s => some s
  | _ :: _, [] => none
  | c :: p, d :: s => if d = c then matchLit p s else none

/-- The alternative `youtu.be\/` (the unescaped `.` matches any non-terminator
character). -/
def matchYoutuBe (s : List Char) : Option (List Char) :=
  match matchLit ['y', 'o', 'u', 't', 'u'] s with
  | some (c :: r) => if jsDot c then matchLit ['b', 'e', '/'] r else none
  | _ => none

/-- The alternative `u\/\w\/`. -/
def matchUserPath (s : List Char) : Option (List Char) :=
  match matchLit ['u', '/'] s with
  | some (c :: r) => if isWordChar c then matchLit ['/'] r else none
  | _ => none

/-- The alternation group `(youtu.be\/|v\/|u\/\w\/|embed\/|watch\?v=|&v=)` at
the head of the input, alternatives in source order. -/
def matchAlt (s : List Char) : Option (List Char) :=
  match matchYoutuBe s with
  | some r => some r
  | none =>
    match matchLit ['v', '/'] s with
    | some r => some r
    | none =>
      match matchUserPath s with
      | some r => some r
      | none =>
        match matchLit ['e', 'm', 'b', 'e', 'd', '/'] s with
        | some r => some r
        | none =>
          match matchLit ['w', 'a', 't', 'c', 'h', '?', 'v', '='] s with
          | some r => some r
          | none => matchLit ['&', 'v', '='] s

/-- Remainder after the alternation group at the rightmost position reachable
by the greedy `^.*` (later positions are preferred; a position is reachable
only while every character before it matches `.`). -/
def bestMatch : List Char → Option (List Char)
  | [] => none
  | c :: rest =>
    if jsDot c then
      match bestMatch rest with
      | some r => some r
      | none => matchAlt (c :: rest)
    else matchAlt (c :: rest)

/-- `ApiService.getYouTubeID`: group 2 of the regex match, accepted only when
exactly 11 characters long. -/
def getYouTubeID (url : String) : Option String :=
  match bestMatch url.data with
  | none => none
  | some rest =>
    let candidate := rest.takeWhile idBodyChar
    if candidate.length = 11 then some (String.mk candidate) else none

/-- One attempt of the playlist-id regex `[?&]list=([^#&?]+)` at the current
position: a `?` or `&`, the literal `list=`, then a nonempty maximal run of
characters outside `#&?`. -/
def listAt (s : List Char) : Option (List Char) :=
  match s with
  | [] => none
  | c :: rest =>
    if c = '?' || c = '&' then
      match matchLit ['l', 'i', 's', 't', '='] rest with
      | some r =>
        let g := r.takeWhile idBodyChar
        if g.isEmpty then none else some g
      | none => none
    else none

/-- Leftmost match of the playlist-id regex: positions tried left to right. -/
def firstListMatch : List Char → Option (List Char)
  | [] => none
  | c :: rest =>
    match listAt (c :: rest) with
    | some g => some g
    | none => firstListMatch rest

/-- `ApiService.getYouTubePlaylistID`: group 1 of the leftmost match of
`[?&]list=([^#&?]+)`, or `none` when the regex does not match. -/
def getYouTubePlaylistID (url : String) : Option String :=
  (firstListMatch url.data).map String.mk

/-- `ApiService.extractTitleFromUrl`: fallback title synthesized from whichever
id is known. -/
def extractTitleFromUrl (url : String) : String :=
  match getYouTubeID url with
  | some videoId => "YouTube Video (" ++ videoId ++ ")"
  | none =>
    match getYouTubePlaylistID url with
    | some playlistId => "YouTube Playlist (" ++ playlistId ++ ")"
    | none => "YouTube Content"

/-- The canonical per-id thumbnail URL template used by both the video path and
the fallback path. -/
def thumbnailFor (videoId : String) : String :=
  "https://img.youtube.com/vi/" ++ videoId ++ "/mqdefault.jpg"

/-! ### Backoff retrier

`ApiService.retryWithBackoff` is embedded with the outcome of the `i`-th
invocation of `operation` supplied by an environment `op : Nat → Except ε τ`
(invocation `i` is the call made with `retryCount = i`).  Besides the value
the source computes, the trace records the observable effects the claims are
about: how many times the operation was invoked and which delays were waited. -/

deriving instance DecidableEq for Except

structure RetryConfig where
  maxRetries : Nat
  baseDelay : Nat
  maxDelay : Nat
  backoffFactor : Nat
deriving DecidableEq, Repr

/-- The fixed `retryConfig` field of `ApiService`. -/
def retryConfig : RetryConfig :=
  { maxRetries := 3, baseDelay := 1000, maxDelay := 10000, backoffFactor := 2 }

/-- Observable behaviour of one run of `retryWithBackoff`: number of
invocations of the operation, delays waited between them, final outcome. -/
structure RetryTrace (ε τ : Type) where
  attempts : Nat
  delays : List Nat
  result : Except ε τ
deriving DecidableEq, Repr

/-- The delay computed before the retry following the failed invocation at
`retryCount`: `Math.min(baseDelay * backoffFactor ** retryCount, maxDelay)`. -/
def backoffDelay (cfg : RetryConfig) (retryCount : Nat) : Nat :=
  min (cfg.baseDelay * cfg.backoffFactor ^ retryCount) cfg.maxDelay

/-- `ApiService.retryWithBackoff`: invoke the operation; on success return its
result; on failure rethrow if `retryCount >= maxRetries`, otherwise wait the
backoff delay and recurse with `retryCount + 1`. -/
def retryWithBackoff (cfg : RetryConfig) (op : Nat → Except ε τ)
    (retryCount : Nat) : RetryTrace ε τ :=
  match op retryCount with
  | .ok t => ⟨1, [], .ok t⟩
  | .error e =>
    if h : retryCount ≥ cfg.maxRetries then ⟨1, [], .error e⟩
    else
      let rest := retryWithBackoff cfg op (retryCount + 1)
      ⟨rest.attempts + 1, backoffDelay cfg retryCount :: rest.delays, rest.result⟩
termination_by cfg.maxRetries - retryCount
decreasing_by omega

/-! ### Timeout-bounded fetcher and transport model

`fetch` either fulfills with a `Response` (whatever its status), rejects with a
network error, or is aborted by the `setTimeout`-driven `AbortController`.
`fetchWithTimeout` returns the response untouched on fulfilment and rethrows
the rejection otherwise (in both branches the timer is cleared, which has no
observable effect here).  `response.json()` is modelled by the `jsonResult`
field: the parse outcome of the body. -/

structure Response (β : Type) where
  ok : Bool
  status : Nat
  jsonResult : Except String β
deriving DecidableEq, Repr

/-- Outcome of one underlying `fetch` call made by `fetchWithTimeout`. -/
inductive TransportOutcome (β : Type) where
  | success (r : Response β)
  | networkError (msg : String)
  | aborted
deriving DecidableEq, Repr

/-- `ApiService.fetchWithTimeout`: return the fulfilled response untouched;
rethrow a network rejection; the timeout abort surfaces as an abort error. -/
def fetchWithTimeout : TransportOutcome β → Except String (Response β)
  | .success r => .ok r
  | .networkError m => .error m
  | .aborted => .error "AbortError"

/-! ### Response bodies and resolution results -/

/-- JavaScript truthiness of an optional string field: `undefined`/`null` and
the empty string are falsy. -/
def truthy : Option String → Bool
  | none => false
  | some s => !s.isEmpty

/-- Decoded JSON body of the noembed oEmbed endpoint, restricted to the fields
the code reads. -/
structure NoEmbedBody where
  error : Option String
  title : Option String
  thumbnail_url : Option String
deriving DecidableEq, Repr

/-- Decoded `playlist_info` object: the title and, for each item of `items`,
its `thumbnail` field (an absent thumbnail, or a null item, is `none`). -/
structure PlaylistInfo where
  title : Option String
  items : List (Option String)
deriving DecidableEq, Repr

/-- Decoded JSON body of the playlist endpoint, restricted to the fields the
code reads. -/
structure PlaylistBody where
  error : Option String
  playlist_info : Option PlaylistInfo
deriving DecidableEq, Repr

inductive Source where
  | primary
  | fallback
deriving DecidableEq, Repr

/-- The `data` component of an `ApiResponse`; `thumbnailUrl` is an `Option`
because the video path copies `data.thumbnail_url` verbatim, which can be the
undefined value. -/
structure VideoData where
  title : String
  thumbnailUrl : Option String
deriving DecidableEq, Repr

/-- `ApiResponse<{title, thumbnailUrl}>`, the `ResolutionResult` of the spec. -/
structure ApiResponse where
  data : VideoData
  success : Bool
  error : Option String
  source : Source
deriving DecidableEq, Repr

/-! ### The two primary-path operations -/

/-- One invocation of the operation retried by
`ApiService.fetchVideoDataFromNoEmbed`, given the transport outcome of its
fetch: non-OK statuses, body-parse failures and error-flagged bodies are
thrown; on success the title defaults to `"Untitled"` and the thumbnail is the
canonical per-id URL when a video id is extracted from `url`, the server's
`thumbnail_url` otherwise. -/
def noembedAttempt (url : String) (t : TransportOutcome NoEmbedBody) :
    Except String ApiResponse :=
  match fetchWithTimeout t with
  | .error m => .error m
  | .ok resp =>
    if !resp.ok then
      .error ("oEmbed network response was not ok: " ++ toString resp.status)
    else
      match resp.jsonResult with
      | .error m => .error m
      | .ok body =>
        if truthy body.error then
          .error ("oEmbed error: " ++ body.error.getD "")
        else
          .ok {
            data := {
              title := if truthy body.title then body.title.getD "" else "Untitled"
              thumbnailUrl :=
                match getYouTubeID url with
                | some v => some (thumbnailFor v)
                | none => body.thumbnail_url
            }
            success := true
            error := none
            source := .primary
          }

/-- One invocation of the operation retried by `ApiService.fetchPlaylistData`,
given the transport outcome of its fetch: non-OK statuses and body-parse
failures are thrown, as is a body with a truthy `error`, a missing
`playlist_info` or an empty `items`; on success the title defaults to
`"YouTube Playlist"` and the thumbnail is the first item's, defaulting to
`"placeholder"`. -/
def playlistAttempt (t : TransportOutcome PlaylistBody) :
    Except String ApiResponse :=
  match fetchWithTimeout t with
  | .error m => .error m
  | .ok resp =>
    if !resp.ok then
      .error ("Playlist API response was not ok: " ++ toString resp.status)
    else
      match resp.jsonResult with
      | .error m => .error m
      | .ok body =>
        match body.playlist_info with
        | none => .error "Playlist data is invalid or empty"
        | some playlistInfo =>
          if truthy body.error || playlistInfo.items.isEmpty then
            .error "Playlist data is invalid or empty"
          else
            let firstVideoThumbnail := playlistInfo.items.headD none
            .ok {
              data := {
                title :=
                  if truthy playlistInfo.title then playlistInfo.title.getD ""
                  else "YouTube Playlist"
                thumbnailUrl :=
                  some (if truthy firstVideoThumbnail then
                          firstVideoThumbnail.getD ""
                        else "placeholder")
              }
              success := true
              error := none
              source := .primary
            }

/-! ### Resolver orchestration -/

/-- `ApiService.fetchVideoDataFromNoEmbed`: the noembed operation wrapped in
the retrier, with the per-invocation transport outcomes supplied by `venv`. -/
def fetchVideoDataFromNoEmbed (url : String)
    (venv : Nat → TransportOutcome NoEmbedBody) : RetryTrace String ApiResponse :=
  retryWithBackoff retryConfig (fun i => noembedAttempt url (venv i)) 0

/-- `ApiService.fetchPlaylistData`: the playlist operation wrapped in the
retrier, with the per-invocation transport outcomes supplied by `penv`. -/
def fetchPlaylistData (penv : Nat → TransportOutcome PlaylistBody) :
    RetryTrace String ApiResponse :=
  retryWithBackoff retryConfig (fun i => playlistAttempt (penv i)) 0

inductive PrimaryPath where
  | playlist
  | video
deriving DecidableEq, Repr

/-- The branch condition of `fetchVideoData`: `if (playlistId && !videoId)`
(the extracted strings are never empty, so JS truthiness is presence). -/
def chosenPath (videoId playlistId : Option String) : PrimaryPath :=
  if playlistId.isSome && videoId.isNone then .playlist else .video

/-- The primary-path attempt sequence of `ApiService.fetchVideoData`: the
playlist lookup when a playlist id and no video id was extracted, the video
lookup otherwise. -/
def primaryTrace (url : String) (venv : Nat → TransportOutcome NoEmbedBody)
    (penv : Nat → TransportOutcome PlaylistBody) : RetryTrace String ApiResponse :=
  match chosenPath (getYouTubeID url) (getYouTubePlaylistID url) with
  | .playlist => fetchPlaylistData penv
  | .video => fetchVideoDataFromNoEmbed url venv

/-- `ApiService.fetchWithFallback`, the body of its `try` block: every
operation in it (id extraction and string templating) is total, so the
embedding is a total function and the `catch` branch of the source — which
would return `success: false` with the caught message — has no corresponding
reachable state. -/
def fetchWithFallback (url : String) (videoId : Option String) : ApiResponse :=
  let thumbnailUrl :=
    match videoId with
    | some v => some (thumbnailFor v)
    | none => some "placeholder"
  let title := extractTitleFromUrl url
  { data := { title := title, thumbnailUrl := thumbnailUrl }
    success := true
    error := none
    source := .fallback }

/-- `ApiService.fetchVideoData`: try the primary path chosen from the extracted
ids; on any failure escaping the retrier, fall back to
`fetchWithFallback(url, videoId)`. -/
def fetchVideoData (url : String) (venv : Nat → TransportOutcome NoEmbedBody)
    (penv : Nat → TransportOutcome PlaylistBody) : ApiResponse :=
  match (primaryTrace url venv penv).result with
  | .ok r => r
  | .error _ => fetchWithFallback url (getYouTubeID url)

/-! ### Health prober -/

/-- Whether a `Promise.allSettled` slot reports `status === 'fulfilled'`. -/
def isFulfilled : Except String (Response β) → Bool
  | .ok _ => true
  | .error _ => false

/-- `ApiService.checkApiHealth`: probe both endpoints (their transport
outcomes given by `probeA`, `probeB`), settle each independently, and report
for each only whether its fetch promise fulfilled. -/
def checkApiHealth (probeA probeB : TransportOutcome Unit) : Bool × Bool :=
  (isFulfilled (fetchWithTimeout probeA), isFulfilled (fetchWithTimeout probeB))


/-! ### Lemmas about the retrier -/

theorem retryWithBackoff_ok {cfg : RetryConfig} {op : Nat → Except ε τ}
    {k : Nat} {t : τ} (he : op k = .ok t) :
    retryWithBackoff cfg op k = ⟨1, [], .ok t⟩ := by
  rw [retryWithBackoff.eq_def, he]

theorem retryWithBackoff_error_last {cfg : RetryConfig} {op : Nat → Except ε τ}
    {k : Nat} {e : ε} (he : op k = .error e) (h : cfg.maxRetries ≤ k) :
    retryWithBackoff cfg op k = ⟨1, [], .error e⟩ := by
  rw [retryWithBackoff.eq_def, he]
  exact dif_pos h

theorem retryWithBackoff_error_step {cfg : RetryConfig} {op : Nat → Except ε τ}
    {k : Nat} {e : ε} (he : op k = .error e) (h : k < cfg.maxRetries) :
    retryWithBackoff cfg op k =
      ⟨(retryWithBackoff cfg op (k + 1)).attempts + 1,
       backoffDelay cfg k :: (retryWithBackoff cfg op (k + 1)).delays,
       (retryWithBackoff cfg op (k + 1)).result⟩ := by
  rw [retryWithBackoff.eq_def, he]
  exact dif_neg (by omega)

/-- When every invocation fails, the run from `retryCount = k` makes the
remaining `maxRetries + 1 - k` invocations, waits the backoff delays for
indices `k, …, maxRetries - 1`, and ends with the outcome of the final
invocation. -/
theorem retryWithBackoff_exhaust {cfg : RetryConfig} {op : Nat → Except ε τ}
    (hop : ∀ i, ∃ e, op i = .error e) :
    ∀ n k, cfg.maxRetries ≤ k + n → k ≤ cfg.maxRetries →
      retryWithBackoff cfg op k =
        ⟨cfg.maxRetries + 1 - k,
         (List.range' k (cfg.maxRetries - k)).map (backoffDelay cfg),
         op cfg.maxRetries⟩ := by
  intro n
  induction n with
  | zero =>
    intro k hn hk
    have hk' : k = cfg.maxRetries := by omega
    subst hk'
    obtain ⟨e, he⟩ := hop cfg.maxRetries
    rw [retryWithBackoff_error_last he (le_refl _), he]
    simp
  | succ n ih =>
    intro k hn hk
    rcases Nat.lt_or_ge k cfg.maxRetries with hlt | hge
    · obtain ⟨e, he⟩ := hop k
      rw [retryWithBackoff_error_step he hlt, ih (k + 1) (by omega) (by omega)]
      have h2 : cfg.maxRetries - k = (cfg.maxRetries - (k + 1)) + 1 := by omega
      simp only [h2, List.range'_succ, List.map_cons]
      refine congrArg₂ (RetryTrace.mk · · _) (by omega) rfl
    · have hk' : k = cfg.maxRetries := by omega
      subst hk'
      obtain ⟨e, he⟩ := hop cfg.maxRetries
      rw [retryWithBackoff_error_last he (le_refl _), he]
      simp

/-- When the invocations before index `j` all fail and invocation `j` succeeds
within the retry budget, the run from `k ≤ j` stops at `j` with its value. -/
theorem retryWithBackoff_first_ok {cfg : RetryConfig} {op : Nat → Except ε τ}
    {j : Nat} {t : τ} (hj : j ≤ cfg.maxRetries) (hok : op j = .ok t)
    (hfail : ∀ i, i < j → ∃ e, op i = .error e) :
    ∀ n k, j ≤ k + n → k ≤ j →
      (retryWithBackoff cfg op k).attempts = j + 1 - k ∧
      (retryWithBackoff cfg op k).result = .ok t := by
  intro n
  induction n with
  | zero =>
    intro k hn hk
    have hk' : k = j := by omega
    subst hk'
    rw [retryWithBackoff_ok hok]
    refine ⟨?_, rfl⟩
    show 1 = _
    omega
  | succ n ih =>
    intro k hn hk
    rcases Nat.lt_or_ge k j with hlt | hge
    · obtain ⟨e, he⟩ := hfail k hlt
      rw [retryWithBackoff_error_step he (by omega)]
      obtain ⟨ha, hr⟩ := ih (k + 1) (by omega) (by omega)
      exact ⟨by simpa [ha] using by omega, by simpa using hr⟩
    · have hk' : k = j := by omega
      subst hk'
      rw [retryWithBackoff_ok hok]
      refine ⟨?_, rfl⟩
      show 1 = _
      omega

/-- Every successful retry outcome is the value of some invocation of the
operation. -/
theorem retryWithBackoff_ok_src {cfg : RetryConfig} {op : Nat → Except ε τ} :
    ∀ n k r, cfg.maxRetries ≤ k + n →
      (retryWithBackoff cfg op k).result = .ok r → ∃ i, op i = .ok r := by
  intro n
  induction n with
  | zero =>
    intro k r hn hres
    cases hk : op k with
    | ok t =>
      rw [retryWithBackoff_ok hk] at hres
      exact ⟨k, by rw [hk]; exact congrArg Except.ok (Except.ok.inj hres)⟩
    | error e =>
      rw [retryWithBackoff_error_last hk (by omega)] at hres
      exact absurd hres (by simp)
  | succ n ih =>
    intro k r hn hres
    cases hk : op k with
    | ok t =>
      rw [retryWithBackoff_ok hk] at hres
      exact ⟨k, by rw [hk]; exact congrArg Except.ok (Except.ok.inj hres)⟩
    | error e =>
      rcases Nat.lt_or_ge k cfg.maxRetries with hlt | hge
      · rw [retryWithBackoff_error_step hk hlt] at hres
        exact ih (k + 1) r (by omega) (by simpa using hres)
      · rw [retryWithBackoff_error_last hk hge] at hres
        exact absurd hres (by simp)

/-- Whatever the operation does, the delays waited form an initial segment of
the backoff-delay sequence starting at the initial retry count. -/
theorem retryWithBackoff_delays_shape {cfg : RetryConfig} {op : Nat → Except ε τ} :
    ∀ n k, cfg.maxRetries ≤ k + n →
      ∃ d, (retryWithBackoff cfg op k).delays =
        (List.range' k d).map (backoffDelay cfg) := by
  intro n
  induction n with
  | zero =>
    intro k hn
    cases hk : op k with
    | ok t => exact ⟨0, by rw [retryWithBackoff_ok hk]; simp⟩
    | error e => exact ⟨0, by rw [retryWithBackoff_error_last hk (by omega)]; simp⟩
  | succ n ih =>
    intro k hn
    cases hk : op k with
    | ok t => exact ⟨0, by rw [retryWithBackoff_ok hk]; simp⟩
    | error e =>
      rcases Nat.lt_or_ge k cfg.maxRetries with hlt | hge
      · obtain ⟨d, hd⟩ := ih (k + 1) (by omega)
        refine ⟨d + 1, ?_⟩
        rw [retryWithBackoff_error_step hk hlt]
        simp [hd, List.range'_succ]
      · exact ⟨0, by rw [retryWithBackoff_error_last hk hge]; simp⟩

/-! ### Claim C2 -/

/-- C2: an operation that fails on every invocation is invoked exactly
`maxRetries + 1` times (4 times under the fixed config, whose `maxRetries` is
3) and the failure of the final attempt is what `retryWithBackoff` propagates
to its caller; if some invocation succeeds, its value is returned and no
further invocation is made. -/
theorem retry_attempt_count {ε τ : Type} (cfg : RetryConfig)
    (op : Nat → Except ε τ) :
    ((∀ i, ∃ e, op i = .error e) →
      (retryWithBackoff cfg op 0).attempts = cfg.maxRetries + 1 ∧
      (retryWithBackoff cfg op 0).result = op cfg.maxRetries) ∧
    ((∀ i, ∃ e, op i = .error e) →
      (retryWithBackoff retryConfig op 0).attempts = 4) ∧
    (∀ j t, j ≤ cfg.maxRetries → op j = .ok t →
      (∀ i, i < j → ∃ e, op i = .error e) →
      (retryWithBackoff cfg op 0).attempts = j + 1 ∧
      (retryWithBackoff cfg op 0).result = .ok t) := by
  refine ⟨?_, ?_, ?_⟩
  · intro hop
    rw [retryWithBackoff_exhaust hop cfg.maxRetries 0 (by omega) (by omega)]
    refine ⟨?_, rfl⟩
    show cfg.maxRetries + 1 - 0 = cfg.maxRetries + 1
    omega
  · intro hop
    rw [retryWithBackoff_exhaust hop retryConfig.maxRetries 0 (by omega) (by omega)]
    rfl
  · intro j t hj hok hfail
    have h := retryWithBackoff_first_ok hj hok hfail j 0 (by omega) (by omega)
    simpa using h

/-- C2 witness: under the fixed config an always-failing operation is invoked
4 times and its last failure is returned. -/
theorem retry_attempt_count_witness :
    (retryWithBackoff retryConfig (fun _ => (Except.error "fail" : Except String Nat)) 0).attempts = 4 :=
  (retry_attempt_count retryConfig (fun _ => (Except.error "fail" : Except String Nat))).2.1
    (fun _ => ⟨"fail", rfl⟩)

/-! ### Claim C3 -/

/-- C3: the delay waited after the failed invocation at 0-indexed index `j` is
`min(baseDelay * backoffFactor ^ j, maxDelay)` and never exceeds `maxDelay`;
under the fixed config the successive delays are 1000, 2000 and 4000 ms, and
with `maxRetries = 5` the fifth retry's delay is capped at 10000 ms. -/
theorem retry_delay_formula {ε τ : Type} (cfg : RetryConfig)
    (op : Nat → Except ε τ) :
    (∀ j (h : j < (retryWithBackoff cfg op 0).delays.length),
      (retryWithBackoff cfg op 0).delays.get ⟨j, h⟩ =
        min (cfg.baseDelay * cfg.backoffFactor ^ j) cfg.maxDelay) ∧
    (∀ d ∈ (retryWithBackoff cfg op 0).delays, d ≤ cfg.maxDelay) ∧
    ((∀ i, ∃ e, op i = .error e) →
      (retryWithBackoff retryConfig op 0).delays = [1000, 2000, 4000]) ∧
    ((∀ i, ∃ e, op i = .error e) →
      (retryWithBackoff { retryConfig with maxRetries := 5 } op 0).delays =
        [1000, 2000, 4000, 8000, 10000]) := by
  obtain ⟨d, hd⟩ :=
    @retryWithBackoff_delays_shape _ _ cfg op cfg.maxRetries 0 (by omega)
  refine ⟨?_, ?_, ?_, ?_⟩
  · intro j h
    simp [hd, backoffDelay, List.get_eq_getElem]
  · intro x hx
    rw [hd] at hx
    simp only [List.mem_map] at hx
    obtain ⟨a, _, ha⟩ := hx
    rw [← ha]
    exact min_le_right _ _
  · intro hop
    rw [retryWithBackoff_exhaust hop retryConfig.maxRetries 0 (by omega) (by omega)]
    dsimp only
    decide
  · intro hop
    rw [retryWithBackoff_exhaust hop
      ({ retryConfig with maxRetries := 5 } : RetryConfig).maxRetries 0 (by omega) (by omega)]
    dsimp only
    decide

/-- C3 witness: the delay list of an always-failing run under the fixed config,
and the formula applied to its first element. -/
theorem retry_delay_formula_witness :
    (retryWithBackoff retryConfig (fun _ => (Except.error "fail" : Except String Nat)) 0).delays = [1000, 2000, 4000] ∧
    ∃ h : 0 < (retryWithBackoff retryConfig (fun _ => (Except.error "fail" : Except String Nat)) 0).delays.length,
      (retryWithBackoff retryConfig (fun _ => (Except.error "fail" : Except String Nat)) 0).delays.get ⟨0, h⟩ = 1000 := by
  have hlist :=
    (retry_delay_formula retryConfig (fun _ => (Except.error "fail" : Except String Nat))).2.2.1
      (fun _ => ⟨"fail", rfl⟩)
  have hlen : 0 < (retryWithBackoff retryConfig (fun _ => (Except.error "fail" : Except String Nat)) 0).delays.length := by
    rw [hlist]; decide
  refine ⟨hlist, hlen, ?_⟩
  have hget :=
    (retry_delay_formula retryConfig (fun _ => (Except.error "fail" : Except String Nat))).1 0 hlen
  rw [hget]
  decide

/-! ### Shape of successful primary attempts -/

theorem noembedAttempt_ok_shape {url : String} {t : TransportOutcome NoEmbedBody}
    {r : ApiResponse} (h : noembedAttempt url t = .ok r) :
    r.success = true ∧ r.error = none ∧ r.source = .primary := by
  unfold noembedAttempt at h
  repeat' split at h
  all_goals try exact Except.noConfusion h
  all_goals injection h with h
  all_goals subst h
  all_goals exact ⟨rfl, rfl, rfl⟩

theorem playlistAttempt_ok_shape {t : TransportOutcome PlaylistBody}
    {r : ApiResponse} (h : playlistAttempt t = .ok r) :
    r.success = true ∧ r.error = none ∧ r.source = .primary := by
  unfold playlistAttempt at h
  repeat' split at h
  all_goals try exact Except.noConfusion h
  all_goals try dsimp only at h
  all_goals injection h with h
  all_goals subst h
  all_goals exact ⟨rfl, rfl, rfl⟩

theorem primaryTrace_ok_shape {url : String}
    {venv : Nat → TransportOutcome NoEmbedBody}
    {penv : Nat → TransportOutcome PlaylistBody} {r : ApiResponse}
    (h : (primaryTrace url venv penv).result = .ok r) :
    r.success = true ∧ r.error = none ∧ r.source = .primary := by
  unfold primaryTrace at h
  cases hp : chosenPath (getYouTubeID url) (getYouTubePlaylistID url) with
  | playlist =>
    rw [hp] at h
    dsimp only at h
    unfold fetchPlaylistData at h
    obtain ⟨i, hi⟩ :=
      retryWithBackoff_ok_src retryConfig.maxRetries 0 r (by omega) h
    exact playlistAttempt_ok_shape hi
  | video =>
    rw [hp] at h
    dsimp only at h
    unfold fetchVideoDataFromNoEmbed at h
    obtain ⟨i, hi⟩ :=
      retryWithBackoff_ok_src retryConfig.maxRetries 0 r (by omega) h
    exact noembedAttempt_ok_shape hi

/-! ### Claim C1 -/

/-- C1: for every url and every behaviour of the underlying HTTP operations,
`fetchVideoData` resolves: its value is either a primary-tier success of the
chosen lookup (the value the primary attempt sequence succeeded with) or
exactly the result `fetchWithFallback` constructs for the url. -/
theorem fetchVideoData_resolves (url : String)
    (venv : Nat → TransportOutcome NoEmbedBody)
    (penv : Nat → TransportOutcome PlaylistBody) :
    ((primaryTrace url venv penv).result = .ok (fetchVideoData url venv penv) ∧
      (fetchVideoData url venv penv).success = true ∧
      (fetchVideoData url venv penv).source = .primary) ∨
    fetchVideoData url venv penv = fetchWithFallback url (getYouTubeID url) := by
  cases hres : (primaryTrace url venv penv).result with
  | ok r =>
    left
    have hfv : fetchVideoData url venv penv = r := by
      unfold fetchVideoData
      rw [hres]
    obtain ⟨h1, _, h3⟩ := primaryTrace_ok_shape hres
    rw [hfv]
    exact ⟨rfl, h1, h3⟩
  | error e =>
    right
    unfold fetchVideoData
    rw [hres]

/-! ### Claim C9 -/

/-- C9: the `success: false` branch of `fetchWithFallback` corresponds to no
reachable state (its `try` block embeds as a total function), so every
resolution returns `success = true` and never carries an error field. -/
theorem fetchVideoData_always_success (url : String)
    (venv : Nat → TransportOutcome NoEmbedBody)
    (penv : Nat → TransportOutcome PlaylistBody) :
    (fetchVideoData url venv penv).success = true ∧
    (fetchVideoData url venv penv).error = none ∧
    ∀ u vid, (fetchWithFallback u vid).success = true ∧
      (fetchWithFallback u vid).error = none := by
  have hfb : ∀ u vid, (fetchWithFallback u vid).success = true ∧
      (fetchWithFallback u vid).error = none := fun u vid => ⟨rfl, rfl⟩
  cases hres : (primaryTrace url venv penv).result with
  | ok r =>
    have hfv : fetchVideoData url venv penv = r := by
      unfold fetchVideoData
      rw [hres]
    obtain ⟨h1, h2, _⟩ := primaryTrace_ok_shape hres
    rw [hfv]
    exact ⟨h1, h2, hfb⟩
  | error e =>
    have hfv : fetchVideoData url venv penv = fetchWithFallback url (getYouTubeID url) := by
      unfold fetchVideoData
      rw [hres]
    rw [hfv]
    exact ⟨rfl, rfl, hfb⟩

/-! ### Claim C4 -/

/-- C4: the playlist-lookup path is taken iff a playlist id and no video id
was extracted, and the branch is a pure function of the two extracted ids,
fixed before any transport outcome is consulted: in the playlist case the
result never depends on the video-path transport, in the video case it never
depends on the playlist-path transport. -/
theorem fetchVideoData_branch (url : String)
    (venv venv' : Nat → TransportOutcome NoEmbedBody)
    (penv penv' : Nat → TransportOutcome PlaylistBody) :
    (chosenPath (getYouTubeID url) (getYouTubePlaylistID url) = .playlist ↔
      (getYouTubePlaylistID url).isSome ∧ (getYouTubeID url).isNone) ∧
    (chosenPath (getYouTubeID url) (getYouTubePlaylistID url) = .playlist →
      fetchVideoData url venv penv = fetchVideoData url venv' penv) ∧
    (chosenPath (getYouTubeID url) (getYouTubePlaylistID url) = .video →
      fetchVideoData url venv penv = fetchVideoData url venv penv') := by
  refine ⟨?_, ?_, ?_⟩
  · unfold chosenPath
    split
    next hcond => simp_all
    next hcond => simp_all
  · intro h
    unfold fetchVideoData primaryTrace
    rw [h]
  · intro h
    unfold fetchVideoData primaryTrace
    rw [h]

/-! ### Claim C5 -/

/-- C5: whenever the primary path exhausts its retries and fails,
`fetchVideoData` returns a fallback-tier result with `success = true` whose
title is the "YouTube Video (<id>)" label when a video id was extracted, the
"YouTube Playlist (<id>)" label when only a playlist id was extracted and
"YouTube Content" when neither, and whose thumbnail is the canonical per-id
URL when a video id is known and the `"placeholder"` sentinel otherwise. -/
theorem fetchVideoData_fallback_shape (url : String)
    (venv : Nat → TransportOutcome NoEmbedBody)
    (penv : Nat → TransportOutcome PlaylistBody) (e : String)
    (h : (primaryTrace url venv penv).result = .error e) :
    fetchVideoData url venv penv =
      { data := {
          title :=
            match getYouTubeID url, getYouTubePlaylistID url with
            | some v, _ => "YouTube Video (" ++ v ++ ")"
            | none, some p => "YouTube Playlist (" ++ p ++ ")"
            | none, none => "YouTube Content"
          thumbnailUrl :=
            match getYouTubeID url with
            | some v => some ("https://img.youtube.com/vi/" ++ v ++ "/mqdefault.jpg")
            | none => some "placeholder" }
        success := true
        error := none
        source := .fallback } := by
  have hfv : fetchVideoData url venv penv = fetchWithFallback url (getYouTubeID url) := by
    unfold fetchVideoData
    rw [h]
  rw [hfv]
  unfold fetchWithFallback extractTitleFromUrl thumbnailFor
  cases hv : getYouTubeID url with
  | some v => rfl
  | none => cases hp : getYouTubePlaylistID url <;> rfl

/-- Sample inputs used by the concrete witnesses: a canonical video URL, a
playlist-only URL, and transports on which every attempt fails. -/
def sampleVideoUrl : String := "https://www.youtube.com/watch?v=dQw4w9WgXcQ"

def samplePlaylistUrl : String := "https://www.youtube.com/playlist?list=PLrAXtmRdnEQy6nuLMOV7V4r4s"

def downVideoEnv : Nat → TransportOutcome NoEmbedBody := fun _ => .networkError "down"

def downPlaylistEnv : Nat → TransportOutcome PlaylistBody := fun _ => .networkError "down"

/-- C5 witness: a video URL whose primary path always fails resolves to the
synthesized fallback result. -/
theorem fetchVideoData_fallback_shape_witness :
    (primaryTrace sampleVideoUrl downVideoEnv downPlaylistEnv).result = .error "down" ∧
    fetchVideoData sampleVideoUrl downVideoEnv downPlaylistEnv =
      { data := {
          title := "YouTube Video (dQw4w9WgXcQ)"
          thumbnailUrl := some "https://img.youtube.com/vi/dQw4w9WgXcQ/mqdefault.jpg" }
        success := true
        error := none
        source := .fallback } := by
  have hop : ∀ i, ∃ er, noembedAttempt sampleVideoUrl (downVideoEnv i) = .error er :=
    fun i => ⟨"down", rfl⟩
  have htr := @retryWithBackoff_exhaust String ApiResponse retryConfig
    (fun i => noembedAttempt sampleVideoUrl (downVideoEnv i)) hop 3 0
    (by decide) (by decide)
  have hres : (primaryTrace sampleVideoUrl downVideoEnv downPlaylistEnv).result = .error "down" := by
    unfold primaryTrace
    rw [show chosenPath (getYouTubeID sampleVideoUrl) (getYouTubePlaylistID sampleVideoUrl) =
      PrimaryPath.video from by decide]
    dsimp only
    unfold fetchVideoDataFromNoEmbed
    rw [htr]
    rfl
  refine ⟨hres, ?_⟩
  rw [fetchVideoData_fallback_shape sampleVideoUrl downVideoEnv downPlaylistEnv "down" hres]
  decide

/-- C4 witness: a playlist-only URL takes the playlist path, and its
resolution is unchanged under a different video-path transport. -/
theorem fetchVideoData_branch_witness :
    chosenPath (getYouTubeID samplePlaylistUrl) (getYouTubePlaylistID samplePlaylistUrl) =
      PrimaryPath.playlist ∧
    fetchVideoData samplePlaylistUrl downVideoEnv downPlaylistEnv =
      fetchVideoData samplePlaylistUrl (fun _ => .aborted) downPlaylistEnv :=
  ⟨by decide,
   (fetchVideoData_branch samplePlaylistUrl downVideoEnv (fun _ => .aborted)
      downPlaylistEnv downPlaylistEnv).2.1 (by decide)⟩

/-! ### Claim C6 -/

/-- C6: on every successful video-path resolution the thumbnail is the
canonical per-id URL whenever a video id is extracted locally from the url
(whatever `thumbnail_url` the responding body carried), the server-provided
`thumbnail_url` is used only when no local video id exists, and the title is
the server-provided title, defaulting to `"Untitled"` when the server gives
none. -/
theorem noembed_success_shape (url : String)
    (venv : Nat → TransportOutcome NoEmbedBody) (r : ApiResponse)
    (h : (fetchVideoDataFromNoEmbed url venv).result = .ok r) :
    (∀ v, getYouTubeID url = some v → r.data.thumbnailUrl = some (thumbnailFor v)) ∧
    ∃ i resp body, venv i = .success resp ∧ resp.ok = true ∧
      resp.jsonResult = .ok body ∧ truthy body.error = false ∧
      (getYouTubeID url = none → r.data.thumbnailUrl = body.thumbnail_url) ∧
      (body.title = none → r.data.title = "Untitled") ∧
      (∀ s, body.title = some s → s ≠ "" → r.data.title = s) := by
  unfold fetchVideoDataFromNoEmbed at h
  obtain ⟨i, hi⟩ := retryWithBackoff_ok_src retryConfig.maxRetries 0 r (by omega) h
  cases hv : venv i with
  | networkError m =>
    rw [hv] at hi
    exact Except.noConfusion hi
  | aborted =>
    rw [hv] at hi
    exact Except.noConfusion hi
  | success resp =>
    rw [hv] at hi
    obtain ⟨rok, rstatus, rjson⟩ := resp
    cases rok with
    | false => simp [noembedAttempt, fetchWithTimeout] at hi
    | true =>
      cases rjson with
      | error m => simp [noembedAttempt, fetchWithTimeout] at hi
      | ok body =>
        cases herr : truthy body.error with
        | true =>
          unfold noembedAttempt fetchWithTimeout at hi
          simp [herr] at hi
        | false =>
          unfold noembedAttempt fetchWithTimeout at hi
          dsimp only at hi
          rw [herr] at hi
          simp only [Bool.false_eq_true, if_false] at hi
          injection hi with hi
          subst hi
          refine ⟨?_, i, ⟨true, rstatus, .ok body⟩, body, hv, rfl, rfl, herr, ?_, ?_, ?_⟩
          · intro v hv'
            simp [hv']
          · intro h0
            simp [h0]
          · intro h0
            simp [h0, truthy]
          · intro s hs hs'
            have : s.isEmpty = false := by
              cases hemp : s.isEmpty
              · rfl
              · exact absurd ((String.isEmpty_iff s).mp hemp) hs'
            simp [hs, truthy, this]

/-- Transport for the C6 witness: the first attempt fulfills with an oEmbed
body `{title: "Test Video"}` carrying no thumbnail. -/
def okVideoEnv : Nat → TransportOutcome NoEmbedBody := fun _ =>
  .success { ok := true, status := 200,
             jsonResult := .ok { error := none, title := some "Test Video",
                                 thumbnail_url := none } }

/-- The primary-tier result the C6 witness run produces. -/
def okVideoResult : ApiResponse :=
  { data := { title := "Test Video",
              thumbnailUrl := some "https://img.youtube.com/vi/dQw4w9WgXcQ/mqdefault.jpg" }
    success := true
    error := none
    source := .primary }

/-- C6 witness: a successful mocked oEmbed lookup of the sample video URL
yields the server title and the canonical per-id thumbnail. -/
theorem noembed_success_shape_witness :
    ∃ r, (fetchVideoDataFromNoEmbed sampleVideoUrl okVideoEnv).result = .ok r ∧
      r.data.thumbnailUrl = some (thumbnailFor "dQw4w9WgXcQ") ∧
      r.data.title = "Test Video" := by
  have hres : (fetchVideoDataFromNoEmbed sampleVideoUrl okVideoEnv).result =
      .ok okVideoResult := by
    unfold fetchVideoDataFromNoEmbed
    exact (@retryWithBackoff_first_ok String ApiResponse retryConfig
      (fun i => noembedAttempt sampleVideoUrl (okVideoEnv i)) 0 okVideoResult
      (by decide) (by decide) (fun i hi => absurd hi (by omega))
      0 0 (by omega) (by omega)).2
  refine ⟨okVideoResult, hres, ?_, rfl⟩
  exact (noembed_success_shape sampleVideoUrl okVideoEnv okVideoResult hres).1
    "dQw4w9WgXcQ" (by decide)

/-! ### Claim C7 -/

/-- C7: `getYouTubeID` (a total function of the url string) returns an id only
when the matched candidate is exactly 11 characters long; a candidate of any
other length yields `none` rather than a truncated id, as on the
`watch?v=short` url. -/
theorem getYouTubeID_length_gate :
    (∀ url v, getYouTubeID url = some v → v.length = 11) ∧
    getYouTubeID "https://www.youtube.com/watch?v=short" = none := by
  constructor
  · intro url v h
    unfold getYouTubeID at h
    split at h
    · exact Option.noConfusion h
    · dsimp only at h
      split at h
      next hlen =>
        injection h with h
        subst h
        exact hlen
      next => exact Option.noConfusion h
  · decide

/-- C7 witness: an 11-character candidate is returned and indeed has
length 11. -/
theorem getYouTubeID_length_gate_witness :
    getYouTubeID sampleVideoUrl = some "dQw4w9WgXcQ" ∧
    ("dQw4w9WgXcQ" : String).length = 11 :=
  ⟨by decide,
   getYouTubeID_length_gate.1 sampleVideoUrl "dQw4w9WgXcQ" (by decide)⟩

/-! ### Claim C10 -/

/-- C10: each flag of `checkApiHealth` equals "that probe's fetch promise
fulfilled": true whenever the probe fulfilled — even with an error status such
as 500, since `ok`/`status` are never inspected — false exactly when the probe
rejected (network failure or timeout abort), and each flag depends only on its
own probe's outcome. -/
theorem checkApiHealth_flags (a b : TransportOutcome Unit) :
    ((checkApiHealth a b).1 = true ↔ ∃ r, a = .success r) ∧
    ((checkApiHealth a b).2 = true ↔ ∃ r, b = .success r) ∧
    (∀ st j, (checkApiHealth (.success { ok := false, status := st, jsonResult := j }) b).1 = true) ∧
    (∀ b', (checkApiHealth a b).1 = (checkApiHealth a b').1) ∧
    (∀ a', (checkApiHealth a b).2 = (checkApiHealth a' b).2) := by
  refine ⟨?_, ?_, ?_, fun b' => rfl, fun a' => rfl⟩
  · cases a <;> simp [checkApiHealth, fetchWithTimeout, isFulfilled]
  · cases b <;> simp [checkApiHealth, fetchWithTimeout, isFulfilled]
  · intro st j
    rfl

/-- C10 witness: a probe fulfilling with HTTP 500 is reported healthy while a
rejected probe is reported unhealthy. -/
theorem checkApiHealth_flags_witness :
    (checkApiHealth (.success { ok := false, status := 500, jsonResult := .ok () })
      (.networkError "down")).1 = true ∧
    (checkApiHealth (.success { ok := false, status := 500, jsonResult := .ok () })
      (.networkError "down")).2 = false :=
  ⟨(checkApiHealth_flags (.success { ok := false, status := 500, jsonResult := .ok () })
      (.networkError "down")).2.2.1 500 (.ok ()),
   rfl⟩

/-! ### Claim C8

The universal statement quantifies over an arbitrary candidate id drawn from
the YouTube id alphabet `[A-Za-z0-9_-]`; such a segment can contain no
character any alternative of the regex needs (`/`, `?`, `&`), so the
rightmost-position search never matches inside it. -/

/-- The YouTube id alphabet. -/
def isIdChar (c : Char) : Bool :=
  c.isAlpha || c.isDigit || c = '_' || c = '-'

theorem matchLit_eq : ∀ p s r, matchLit p s = some r → s = p ++ r := by
  intro p
  induction p with
  | nil =>
    intro s r h
    simpa [matchLit] using h
  | cons c p ih =>
    intro s r h
    cases s with
    | nil => exact Option.noConfusion h
    | cons d s' =>
      unfold matchLit at h
      split at h
      next hdc =>
        subst hdc
        rw [ih s' r h]
        rfl
      next => exact Option.noConfusion h

theorem matchYoutuBe_slash {s r : List Char} (h : matchYoutuBe s = some r) :
    '/' ∈ s := by
  unfold matchYoutuBe at h
  split at h
  next c r1 heq =>
    split at h
    · rw [matchLit_eq _ _ _ heq, matchLit_eq _ _ _ h]
      simp
    · exact Option.noConfusion h
  next => exact Option.noConfusion h

theorem matchUserPath_slash {s r : List Char} (h : matchUserPath s = some r) :
    '/' ∈ s := by
  unfold matchUserPath at h
  split at h
  next c r1 heq =>
    split at h
    · rw [matchLit_eq _ _ _ heq]
      simp
    · exact Option.noConfusion h
  next => exact Option.noConfusion h

/-- When the id segment contains none of `/`, `?`, `&`, no alternative of the
group can match at any position inside it. -/
theorem matchAlt_eq_none {s : List Char}
    (h : ∀ c ∈ s, c ≠ '/' ∧ c ≠ '?' ∧ c ≠ '&') : matchAlt s = none := by
  have h1 : matchYoutuBe s = none := by
    cases hm : matchYoutuBe s with
    | none => rfl
    | some r => exact absurd rfl (h '/' (matchYoutuBe_slash hm)).1
  have h2 : matchLit ['v', '/'] s = none := by
    cases hm : matchLit ['v', '/'] s with
    | none => rfl
    | some r =>
      refine absurd rfl (h '/' ?_).1
      rw [matchLit_eq _ _ _ hm]
      simp
  have h3 : matchUserPath s = none := by
    cases hm : matchUserPath s with
    | none => rfl
    | some r => exact absurd rfl (h '/' (matchUserPath_slash hm)).1
  have h4 : matchLit ['e', 'm', 'b', 'e', 'd', '/'] s = none := by
    cases hm : matchLit ['e', 'm', 'b', 'e', 'd', '/'] s with
    | none => rfl
    | some r =>
      refine absurd rfl (h '/' ?_).1
      rw [matchLit_eq _ _ _ hm]
      simp
  have h5 : matchLit ['w', 'a', 't', 'c', 'h', '?', 'v', '='] s = none := by
    cases hm : matchLit ['w', 'a', 't', 'c', 'h', '?', 'v', '='] s with
    | none => rfl
    | some r =>
      refine absurd rfl (h '?' ?_).2.1
      rw [matchLit_eq _ _ _ hm]
      simp
  have h6 : matchLit ['&', 'v', '='] s = none := by
    cases hm : matchLit ['&', 'v', '='] s with
    | none => rfl
    | some r =>
      refine absurd rfl (h '&' ?_).2.2
      rw [matchLit_eq _ _ _ hm]
      simp
  simp only [matchAlt, h1, h2, h3, h4, h5, h6]

/-- The rightmost-position search finds nothing inside the id segment. -/
theorem bestMatch_eq_none {s : List Char}
    (h : ∀ c ∈ s, c ≠ '/' ∧ c ≠ '?' ∧ c ≠ '&') : bestMatch s = none := by
  induction s with
  | nil => rfl
  | cons c rest ih =>
    have hrest := ih (fun d hd => h d (List.mem_cons_of_mem c hd))
    have halt : matchAlt (c :: rest) = none := matchAlt_eq_none h
    simp only [bestMatch, hrest, halt, ite_self]

theorem isIdChar_props {c : Char} (h : isIdChar c = true) :
    c ≠ '/' ∧ c ≠ '?' ∧ c ≠ '&' ∧ idBodyChar c = true := by
  have hslash : c ≠ '/' := fun hc => by subst hc; exact absurd h (by decide)
  have hq : c ≠ '?' := fun hc => by subst hc; exact absurd h (by decide)
  have hamp : c ≠ '&' := fun hc => by subst hc; exact absurd h (by decide)
  have hhash : c ≠ '#' := fun hc => by subst hc; exact absurd h (by decide)
  exact ⟨hslash, hq, hamp, by simp [idBodyChar, hslash, hq, hamp, hhash]⟩

/-- An accepted group-2 match over the id alphabet of length 11 makes
`getYouTubeID` return it. -/
theorem getYouTubeID_of_bestMatch {u id : String}
    (hbm : bestMatch u.data = some id.data)
    (hc : ∀ c ∈ id.data, isIdChar c = true) (hlen : id.data.length = 11) :
    getYouTubeID u = some id := by
  have htake : id.data.takeWhile idBodyChar = id.data :=
    List.takeWhile_eq_self_iff.mpr (fun c hm => (isIdChar_props (hc c hm)).2.2.2)
  unfold getYouTubeID
  rw [hbm]
  dsimp only
  rw [htake, if_pos hlen]

set_option maxHeartbeats 1600000 in
set_option maxRecDepth 4000 in
/-- C8: for every id over the YouTube id alphabet of exactly 11 characters,
`getYouTubeID` extracts it from the short-link form, the canonical
`watch?v=` / `embed/` / `v/` forms, and the generic catch-all form of a
`v=`-bearing query parameter. -/
theorem getYouTubeID_recognized_shapes (id : String)
    (hc : ∀ c ∈ id.data, isIdChar c = true) (hlen : id.data.length = 11) :
    getYouTubeID ("https://youtu.be/" ++ id) = some id ∧
    getYouTubeID ("https://www.youtube.com/watch?v=" ++ id) = some id ∧
    getYouTubeID ("https://www.youtube.com/embed/" ++ id) = some id ∧
    getYouTubeID ("https://www.youtube.com/v/" ++ id) = some id ∧
    getYouTubeID ("https://example.com/page?foo=bar&v=" ++ id) = some id := by
  have hsafe : ∀ c ∈ id.data, c ≠ '/' ∧ c ≠ '?' ∧ c ≠ '&' := fun c hm =>
    ⟨(isIdChar_props (hc c hm)).1, (isIdChar_props (hc c hm)).2.1,
     (isIdChar_props (hc c hm)).2.2.1⟩
  have hid : bestMatch id.data = none := bestMatch_eq_none hsafe
  have h_youtuBe : bestMatch ('h' :: 't' :: 't' :: 'p' :: 's' :: ':' :: '/' :: '/' :: 'y' :: 'o' :: 'u' :: 't' :: 'u' :: '.' :: 'b' :: 'e' :: '/' :: id.data) = some id.data := by
    simp +decide [bestMatch, matchAlt, matchYoutuBe, matchUserPath, matchLit, jsDot, isWordChar, hid]
  have h_watch : bestMatch ('h' :: 't' :: 't' :: 'p' :: 's' :: ':' :: '/' :: '/' :: 'w' :: 'w' :: 'w' :: '.' :: 'y' :: 'o' :: 'u' :: 't' :: 'u' :: 'b' :: 'e' :: '.' :: 'c' :: 'o' :: 'm' :: '/' :: 'w' :: 'a' :: 't' :: 'c' :: 'h' :: '?' :: 'v' :: '=' :: id.data) = some id.data := by
    simp +decide [bestMatch, matchAlt, matchYoutuBe, matchUserPath, matchLit, jsDot, isWordChar, hid]
  have h_embedP : bestMatch ('h' :: 't' :: 't' :: 'p' :: 's' :: ':' :: '/' :: '/' :: 'w' :: 'w' :: 'w' :: '.' :: 'y' :: 'o' :: 'u' :: 't' :: 'u' :: 'b' :: 'e' :: '.' :: 'c' :: 'o' :: 'm' :: '/' :: 'e' :: 'm' :: 'b' :: 'e' :: 'd' :: '/' :: id.data) = some id.data := by
    simp +decide [bestMatch, matchAlt, matchYoutuBe, matchUserPath, matchLit, jsDot, isWordChar, hid]
  have h_vPath : bestMatch ('h' :: 't' :: 't' :: 'p' :: 's' :: ':' :: '/' :: '/' :: 'w' :: 'w' :: 'w' :: '.' :: 'y' :: 'o' :: 'u' :: 't' :: 'u' :: 'b' :: 'e' :: '.' :: 'c' :: 'o' :: 'm' :: '/' :: 'v' :: '/' :: id.data) = some id.data := by
    simp +decide [bestMatch, matchAlt, matchYoutuBe, matchUserPath, matchLit, jsDot, isWordChar, hid]
  have h_catchAll : bestMatch ('h' :: 't' :: 't' :: 'p' :: 's' :: ':' :: '/' :: '/' :: 'e' :: 'x' :: 'a' :: 'm' :: 'p' :: 'l' :: 'e' :: '.' :: 'c' :: 'o' :: 'm' :: '/' :: 'p' :: 'a' :: 'g' :: 'e' :: '?' :: 'f' :: 'o' :: 'o' :: '=' :: 'b' :: 'a' :: 'r' :: '&' :: 'v' :: '=' :: id.data) = some id.data := by
    simp +decide [bestMatch, matchAlt, matchYoutuBe, matchUserPath, matchLit, jsDot, isWordChar, hid]
  exact ⟨getYouTubeID_of_bestMatch h_youtuBe hc hlen,
         getYouTubeID_of_bestMatch h_watch hc hlen,
         getYouTubeID_of_bestMatch h_embedP hc hlen,
         getYouTubeID_of_bestMatch h_vPath hc hlen,
         getYouTubeID_of_bestMatch h_catchAll hc hlen⟩

/-- C8 witness: the five shapes instantiated with the sample id. -/
theorem getYouTubeID_recognized_shapes_witness :
    getYouTubeID ("https://youtu.be/" ++ "dQw4w9WgXcQ") = some "dQw4w9WgXcQ" ∧
    getYouTubeID ("https://www.youtube.com/watch?v=" ++ "dQw4w9WgXcQ") = some "dQw4w9WgXcQ" :=
  ⟨(getYouTubeID_recognized_shapes "dQw4w9WgXcQ" (by decide) (by decide)).1,
   (getYouTubeID_recognized_shapes "dQw4w9WgXcQ" (by decide) (by decide)).2.1⟩

end YtQueue
